import Mathlib

set_option maxRecDepth 16384

/-!
Verification of the alert-block transform in
`src/themes/cactus/scripts/alerts.js`.

The script registers an `after_post_render` filter that rewrites
`<blockquote><p>[!TAG] ...</p></blockquote>` regions of the rendered HTML
into styled `<div class="alert ...">` containers.  The matching is driven
by the regular expression

  `(<blockquote>[\n|\s]*<p>\[!)(NOTE|IMPORTANT|WARNING|TIP|CAUTION)\]([^]*?)<\/p>[\n|\s]*<\/blockquote>`

with the global and multiline flags, applied through
`data.content.replace(regex, fn)`.  The embedding below models the regex
match directly: the character classes `[\n|\s]` are matched greedily (the
following literal starts with `<`, which is not in the class, so greedy
matching with backtracking is equivalent to maximal munch), the lazy body
`([^]*?)` takes the shortest body after which the closing sequence
matches, and the global replace scans left to right, resuming after each
consumed region.
-/

/-- One entry of the `alertConfig` table in alerts.js: a CSS class name
(`className`) and a title label (`ja`). -/
structure AlertStyle where
  className : String
  ja : String
deriving DecidableEq

/-- The `alertConfig` object of alerts.js, as a lookup: `alertConfig[tag]`
is `none` when the property is absent (reading a field of the result then
throws in JavaScript). -/
def alertConfig (tag : String) : Option AlertStyle :=
  if tag = "NOTE" then
    some ⟨"is-info", "<ion-icon name=\"alert-circle-outline\"></ion-icon> Note"⟩
  else if tag = "TIP" then
    some ⟨"is-success", "<ion-icon name=\"leaf-outline\"></ion-icon> Tip"⟩
  else if tag = "IMPORTANT" then
    some ⟨"is-important", "<ion-icon name=\"hand-right-outline\"></ion-icon> Important"⟩
  else if tag = "CAUTION" then
    some ⟨"is-caution", "<ion-icon name=\"skull-outline\"></ion-icon> Caution"⟩
  else if tag = "WARNING" then
    some ⟨"is-warning", "<ion-icon name=\"warning-outline\"></ion-icon> Warning"⟩
  else none

/-- JavaScript regular-expression `\s` (ECMA-262 WhiteSpace and
LineTerminator characters). -/
def isJsSpace (c : Char) : Bool :=
  c = ' ' || c = '\t' || c = '\n' || c = '\x0d' || c = '\x0b' || c = '\x0c' ||
  c = '\u00A0' || c = '\u1680' || ('\u2000' ≤ c && c ≤ '\u200A') ||
  c = '\u2028' || c = '\u2029' || c = '\u202F' || c = '\u205F' ||
  c = '\u3000' || c = '\uFEFF'

/-- The character class `[\n|\s]` of the regex in alerts.js: a newline, a
literal bar, or a whitespace character. -/
def isSepChar (c : Char) : Bool :=
  c = '\n' || c = '|' || isJsSpace c

/-- Greedy match of `[\n|\s]*`: drop the maximal run of class characters.
The literal that follows the class in the regex starts with `<`, which is
not in the class, so greedy matching with backtracking is equivalent to
this maximal munch. -/
def dropSeps : List Char → List Char
  | [] => []
  | c :: cs => if isSepChar c then dropSeps cs else c :: cs

/-- Match a literal character sequence at the head of the input, returning
the remainder on success. -/
def dropLit : List Char → List Char → Option (List Char)
  | [], l => some l
  | _ :: _, [] => none
  | p :: ps, c :: cs => if p = c then dropLit ps cs else none

/-- The tag alternation `(NOTE|IMPORTANT|WARNING|TIP|CAUTION)` of the
regex, returning the captured tag name (group 2) and the remainder.  No
alternative is a proper initial segment of another, so the alternation is
deterministic. -/
def matchTag (l : List Char) : Option (String × List Char) :=
  match dropLit "NOTE".data l with
  | some r => some ("NOTE", r)
  | none =>
  match dropLit "IMPORTANT".data l with
  | some r => some ("IMPORTANT", r)
  | none =>
  match dropLit "WARNING".data l with
  | some r => some ("WARNING", r)
  | none =>
  match dropLit "TIP".data l with
  | some r => some ("TIP", r)
  | none =>
  match dropLit "CAUTION".data l with
  | some r => some ("CAUTION", r)
  | none => none

/-- Attempt to match the closing sequence `</p>[\n|\s]*</blockquote>` at
the current position, returning the input after `</blockquote>`. -/
def tryEndHere (l : List Char) : Option (List Char) :=
  match dropLit "</p>".data l with
  | none => none
  | some r => dropLit "</blockquote>".data (dropSeps r)

/-- The lazy body `([^]*?)` followed by `</p>[\n|\s]*</blockquote>`: the
shortest body (group 3) after which the closing sequence matches,
returning the body and the input after `</blockquote>`. -/
def matchBodyEnd : List Char → Option (List Char × List Char)
  | [] =>
    match tryEndHere [] with
    | some rest => some ([], rest)
    | none => none
  | c :: cs =>
    match tryEndHere (c :: cs) with
    | some rest => some ([], rest)
    | none =>
      match matchBodyEnd cs with
      | some (b, r) => some (c :: b, r)
      | none => none

/-- Match the whole regex of alerts.js at the start of the input: on
success return the captured tag name (group 2), the captured body
(group 3), and the input after the match. -/
def matchAlertAt (l : List Char) : Option (String × List Char × List Char) :=
  match dropLit "<blockquote>".data l with
  | none => none
  | some r1 =>
    match dropLit "<p>[!".data (dropSeps r1) with
    | none => none
    | some r2 =>
      match matchTag r2 with
      | none => none
      | some (tag, r3) =>
        match dropLit "]".data r3 with
        | none => none
        | some r4 =>
          match matchBodyEnd r4 with
          | none => none
          | some (body, rest) => some (tag, body, rest)

/-- JavaScript `p3.split('<br>')`: split on every occurrence of the
separator, left to right; splitting the empty string gives `[[]]`. -/
def splitOnBr : List Char → List (List Char)
  | '<' :: 'b' :: 'r' :: '>' :: rest => [] :: splitOnBr rest
  | [] => [[]]
  | c :: cs =>
    match splitOnBr cs with
    | [] => [[c]]
    | h :: t => (c :: h) :: t

/-- JavaScript `content.join(sep)`. -/
def joinWith (sep : List Char) : List (List Char) → List Char
  | [] => []
  | [x] => x
  | x :: y :: t => x ++ sep ++ joinWith sep (y :: t)

/-- The replacement callback of alerts.js for a matched tag and body:
look the tag up in `alertConfig`, split the body on `<br>`, drop a single
leading empty line, wrap every line in `<p>...</p>`, and build the alert
container.  `none` models the callback throwing on the null-field
dereference when the tag is absent from the table. -/
def renderAlert (tag : String) (body : List Char) : Option (List Char) :=
  match alertConfig tag with
  | none => none
  | some alert =>
    let content := splitOnBr body
    let content :=
      match content with
      | [] :: rest => rest
      | other => other
    let p := "<p>".data ++ joinWith "</p><p>".data content ++ "</p>".data
    some ("<div class=\"alert ".data ++ alert.className.data
      ++ "\"><p class=\"alert-title\">".data ++ alert.ja.data
      ++ "</p>".data ++ p ++ "</div>".data)

/-- One global `content.replace(regex, fn)` pass, with explicit fuel.  At
every position the scan either consumes one unmatched character or a whole
matched region (at least the `<blockquote>` opening), so `l.length` fuel
never runs out; `applyAlertsAux_fuel_eq` below makes the fuel-independence
precise.  `none` models the replacement callback throwing. -/
def applyAlertsAux : Nat → List Char → Option (List Char)
  | _, [] => some []
  | 0, _ :: _ => none
  | fuel + 1, c :: cs =>
    match matchAlertAt (c :: cs) with
    | some (tag, body, rest) =>
      match renderAlert tag body with
      | none => none
      | some rep =>
        match applyAlertsAux fuel rest with
        | none => none
        | some out => some (rep ++ out)
    | none =>
      match applyAlertsAux fuel cs with
      | none => none
      | some out => some (c :: out)

/-- `content.replace(regex, fn)`: replace every non-overlapping match in a
single left-to-right pass. -/
def applyAlerts (l : List Char) : Option (List Char) :=
  applyAlertsAux l.length l

/-- The alerts.js transform on a content string. -/
def alertsTransform (s : String) : Option String :=
  match applyAlerts s.data with
  | none => none
  | some out => some ⟨out⟩

/-- A hexo post object as seen by the filter: the `content` field holding
the rendered HTML, and all its other fields abstracted as `extra`. -/
structure HexoDocument (α : Type) where
  content : String
  extra : α
deriving DecidableEq

/-- The registered `after_post_render` filter of alerts.js: set
`data.content` to the transformed HTML and return the same object.
`none` models the callback throwing. -/
def afterPostRender {α : Type} (d : HexoDocument α) : Option (HexoDocument α) :=
  match alertsTransform d.content with
  | none => none
  | some c => some { content := c, extra := d.extra }

/-- Whether the regex matches anywhere in the input. -/
def hasMatch : List Char → Bool
  | [] => false
  | c :: cs => (matchAlertAt (c :: cs)).isSome || hasMatch cs

/-- Matching a literal consumes exactly its length. -/
theorem dropLit_length (p : List Char) :
    ∀ l r : List Char, dropLit p l = some r → p.length + r.length = l.length := by
  induction p with
  | nil =>
    intro l r h
    simp only [dropLit, Option.some.injEq] at h
    simp [h]
  | cons p ps ih =>
    intro l r h
    cases l with
    | nil => simp [dropLit] at h
    | cons c cs =>
      simp only [dropLit] at h
      by_cases hpc : p = c
      · rw [if_pos hpc] at h
        have := ih cs r h
        simp only [List.length_cons]
        omega
      · rw [if_neg hpc] at h
        simp at h

/-- Matching a nonempty literal strictly consumes input. -/
theorem dropLit_length_lt (p l r : List Char) (hp : p ≠ [])
    (h : dropLit p l = some r) : r.length < l.length := by
  have := dropLit_length p l r h
  cases p with
  | nil => exact absurd rfl hp
  | cons a as => simp only [List.length_cons] at this; omega

/-- Greedy class matching never lengthens the input. -/
theorem dropSeps_length_le : ∀ l : List Char, (dropSeps l).length ≤ l.length := by
  intro l
  induction l with
  | nil => simp [dropSeps]
  | cons c cs ih =>
    simp only [dropSeps]
    split
    · exact Nat.le_succ_of_le ih
    · simp

/-- A successful tag match yields one of the five configured tag names and
consumes part of the input. -/
theorem matchTag_spec (l : List Char) (t : String) (r : List Char)
    (h : matchTag l = some (t, r)) :
    (t = "NOTE" ∨ t = "IMPORTANT" ∨ t = "WARNING" ∨ t = "TIP" ∨ t = "CAUTION") ∧
      r.length ≤ l.length := by
  simp only [matchTag] at h
  split at h
  next r' heq =>
    simp only [Option.some.injEq, Prod.mk.injEq] at h
    obtain ⟨rfl, rfl⟩ := h
    exact ⟨by tauto, by have := dropLit_length _ _ _ heq; omega⟩
  next =>
    split at h
    next r' heq =>
      simp only [Option.some.injEq, Prod.mk.injEq] at h
      obtain ⟨rfl, rfl⟩ := h
      exact ⟨by tauto, by have := dropLit_length _ _ _ heq; omega⟩
    next =>
      split at h
      next r' heq =>
        simp only [Option.some.injEq, Prod.mk.injEq] at h
        obtain ⟨rfl, rfl⟩ := h
        exact ⟨by tauto, by have := dropLit_length _ _ _ heq; omega⟩
      next =>
        split at h
        next r' heq =>
          simp only [Option.some.injEq, Prod.mk.injEq] at h
          obtain ⟨rfl, rfl⟩ := h
          exact ⟨by tauto, by have := dropLit_length _ _ _ heq; omega⟩
        next =>
          split at h
          next r' heq =>
            simp only [Option.some.injEq, Prod.mk.injEq] at h
            obtain ⟨rfl, rfl⟩ := h
            exact ⟨by tauto, by have := dropLit_length _ _ _ heq; omega⟩
          next => simp at h

/-- A successful closing-sequence match consumes part of the input. -/
theorem tryEndHere_length_le (l r : List Char) (h : tryEndHere l = some r) :
    r.length ≤ l.length := by
  simp only [tryEndHere] at h
  split at h
  · simp at h
  next r1 heq =>
    have h1 := dropLit_length _ _ _ heq
    have h2 := dropLit_length _ _ _ h
    have h3 := dropSeps_length_le r1
    omega

/-- A successful lazy-body match consumes part of the input. -/
theorem matchBodyEnd_length_le :
    ∀ l b r : List Char, matchBodyEnd l = some (b, r) → r.length ≤ l.length := by
  intro l
  induction l with
  | nil =>
    intro b r h
    simp only [matchBodyEnd] at h
    split at h
    next rest heq =>
      simp only [Option.some.injEq, Prod.mk.injEq] at h
      obtain ⟨rfl, rfl⟩ := h
      exact tryEndHere_length_le _ _ heq
    next => simp at h
  | cons c cs ih =>
    intro b r h
    simp only [matchBodyEnd] at h
    split at h
    next rest heq =>
      simp only [Option.some.injEq, Prod.mk.injEq] at h
      obtain ⟨rfl, rfl⟩ := h
      exact tryEndHere_length_le _ _ heq
    next =>
      split at h
      next b' r' heq =>
        simp only [Option.some.injEq, Prod.mk.injEq] at h
        obtain ⟨rfl, rfl⟩ := h
        have := ih _ _ heq
        simp only [List.length_cons]
        omega
      next => simp at h

/-- A successful whole-regex match captures one of the five configured tag
names and strictly consumes input. -/
theorem matchAlertAt_spec (l : List Char) (t : String) (b rest : List Char)
    (h : matchAlertAt l = some (t, b, rest)) :
    (t = "NOTE" ∨ t = "IMPORTANT" ∨ t = "WARNING" ∨ t = "TIP" ∨ t = "CAUTION") ∧
      rest.length < l.length := by
  simp only [matchAlertAt] at h
  split at h
  · simp at h
  next r1 h1 =>
    split at h
    · simp at h
    next r2 h2 =>
      split at h
      · simp at h
      next tag r3 h3 =>
        split at h
        · simp at h
        next r4 h4 =>
          split at h
          · simp at h
          next body rest' h5 =>
            simp only [Option.some.injEq, Prod.mk.injEq] at h
            obtain ⟨rfl, rfl, rfl⟩ := h
            have e1 := dropLit_length_lt _ _ _ (by simp) h1
            have e2 := dropLit_length _ _ _ h2
            have e3 := dropSeps_length_le r1
            have e4 := (matchTag_spec _ _ _ h3).2
            have e5 := dropLit_length_lt _ _ _ (by simp) h4
            have e6 := matchBodyEnd_length_le _ _ _ h5
            exact ⟨(matchTag_spec _ _ _ h3).1, by omega⟩

/-- Every tag name the regex can capture is present in `alertConfig`. -/
theorem matchAlertAt_config (l : List Char) (t : String) (b rest : List Char)
    (h : matchAlertAt l = some (t, b, rest)) : (alertConfig t).isSome := by
  rcases (matchAlertAt_spec l t b rest h).1 with rfl | rfl | rfl | rfl | rfl <;> decide

/-- The replacement callback succeeds whenever the tag is in the table. -/
theorem renderAlert_isSome (t : String) (b : List Char)
    (h : (alertConfig t).isSome) : (renderAlert t b).isSome := by
  simp only [renderAlert]
  split
  next heq => rw [heq] at h; simp at h
  next => simp

/-- With enough fuel the scan never fails: the replacement callback is
total on matched tags and fuel is spent no faster than input. -/
theorem applyAlertsAux_isSome :
    ∀ (fuel : Nat) (l : List Char), l.length ≤ fuel →
      (applyAlertsAux fuel l).isSome := by
  intro fuel
  induction fuel with
  | zero =>
    intro l hl
    cases l with
    | nil => simp [applyAlertsAux]
    | cons c cs => simp at hl
  | succ fuel ih =>
    intro l hl
    cases l with
    | nil => simp [applyAlertsAux]
    | cons c cs =>
      simp only [List.length_cons] at hl
      cases hm : matchAlertAt (c :: cs) with
      | some v =>
        obtain ⟨tag, body, rest⟩ := v
        have hlt : rest.length < cs.length + 1 := by
          have := (matchAlertAt_spec _ _ _ _ hm).2
          simpa using this
        have hr : (renderAlert tag body).isSome :=
          renderAlert_isSome _ _ (matchAlertAt_config _ _ _ _ hm)
        cases hrep : renderAlert tag body with
        | none => rw [hrep] at hr; simp at hr
        | some rep =>
          have hrec := ih rest (by omega)
          cases hx : applyAlertsAux fuel rest with
          | none => rw [hx] at hrec; simp at hrec
          | some out => simp [applyAlertsAux, hm, hrep, hx]
      | none =>
        have hrec := ih cs (by omega)
        cases hx : applyAlertsAux fuel cs with
        | none => rw [hx] at hrec; simp at hrec
        | some out => simp [applyAlertsAux, hm, hx]

/-- The scan result does not depend on the fuel, as long as the fuel
covers the input length. -/
theorem applyAlertsAux_fuel_eq :
    ∀ (f g : Nat) (l : List Char), l.length ≤ f → l.length ≤ g →
      applyAlertsAux f l = applyAlertsAux g l := by
  intro f
  induction f using Nat.strong_induction_on with
  | _ f ih =>
    intro g l hf hg
    cases l with
    | nil =>
      cases f <;> cases g <;> simp [applyAlertsAux]
    | cons c cs =>
      cases f with
      | zero => simp at hf
      | succ f' =>
        cases g with
        | zero => simp at hg
        | succ g' =>
          simp only [List.length_cons] at hf hg
          cases hm : matchAlertAt (c :: cs) with
          | some v =>
            obtain ⟨tag, body, rest⟩ := v
            have hlt : rest.length < cs.length + 1 := by
              have := (matchAlertAt_spec _ _ _ _ hm).2
              simpa using this
            simp only [applyAlertsAux, hm]
            rw [ih f' (Nat.lt_succ_self f') g' rest (by omega) (by omega)]
          | none =>
            simp only [applyAlertsAux, hm]
            rw [ih f' (Nat.lt_succ_self f') g' cs (by omega) (by omega)]

/-- A document in which the regex matches nowhere scans to itself. -/
theorem applyAlertsAux_of_not_hasMatch :
    ∀ (fuel : Nat) (l : List Char), l.length ≤ fuel → hasMatch l = false →
      applyAlertsAux fuel l = some l := by
  intro fuel
  induction fuel with
  | zero =>
    intro l hl _
    cases l with
    | nil => simp [applyAlertsAux]
    | cons c cs => simp at hl
  | succ fuel ih =>
    intro l hl hm
    cases l with
    | nil => simp [applyAlertsAux]
    | cons c cs =>
      simp only [List.length_cons] at hl
      cases hx : matchAlertAt (c :: cs) with
      | some v => simp [hasMatch, hx] at hm
      | none =>
        simp only [hasMatch, hx, Option.isSome_none, Bool.false_or] at hm
        simp only [applyAlertsAux, hx]
        rw [ih cs (by omega) hm]

/-- Pass-through: a content with no regex match is returned unchanged. -/
theorem applyAlerts_of_not_hasMatch (l : List Char) (h : hasMatch l = false) :
    applyAlerts l = some l :=
  applyAlertsAux_of_not_hasMatch l.length l (Nat.le_refl _) h

/-- Pass-through on strings. -/
theorem alertsTransform_of_not_hasMatch (s : String) (h : hasMatch s.data = false) :
    alertsTransform s = some s := by
  simp only [alertsTransform, applyAlerts_of_not_hasMatch s.data h]

/-- The transform never throws: it returns a string on every input. -/
theorem alertsTransform_isSome (s : String) : (alertsTransform s).isSome := by
  have h := applyAlertsAux_isSome s.data.length s.data (Nat.le_refl _)
  simp only [alertsTransform, applyAlerts]
  cases hx : applyAlertsAux s.data.length s.data with
  | none => rw [hx] at h; simp at h
  | some out => simp

/-- An unmatched head character is passed through verbatim and scanning
continues on the tail. -/
theorem applyAlerts_cons_of_none (c : Char) (cs : List Char)
    (h : matchAlertAt (c :: cs) = none) :
    applyAlerts (c :: cs) = Option.map (fun out => c :: out) (applyAlerts cs) := by
  simp only [applyAlerts, List.length_cons, applyAlertsAux, h]
  cases applyAlertsAux cs.length cs <;> simp

/-- A matched region is consumed whole: its replacement is emitted and
scanning resumes after the region. -/
theorem applyAlerts_match_step (l : List Char) (t : String) (b rest rep : List Char)
    (h1 : matchAlertAt l = some (t, b, rest)) (h2 : renderAlert t b = some rep) :
    applyAlerts l = Option.map (fun out => rep ++ out) (applyAlerts rest) := by
  cases l with
  | nil =>
    have : matchAlertAt ([] : List Char) = none := by decide
    rw [this] at h1
    simp at h1
  | cons c cs =>
    have hlt : rest.length < cs.length + 1 := by
      have := (matchAlertAt_spec _ _ _ _ h1).2
      simpa using this
    simp only [applyAlerts, List.length_cons, applyAlertsAux, h1, h2]
    rw [applyAlertsAux_fuel_eq cs.length rest.length rest (by omega) (Nat.le_refl _)]
    cases applyAlertsAux rest.length rest <;> simp

/-- C1 counterexample: the claim predicts a paragraph whose content is
exactly `body text`, but the captured body starts right after the `]`, so
the space between `]` and `body` is kept and the paragraph is
`<p> body text</p>`, not `<p>body text</p>` (shown here for NOTE). -/
theorem C1_claim_counterexample :
    alertsTransform "<blockquote><p>[!NOTE] body text</p></blockquote>" ≠
      some "<div class=\"alert is-info\"><p class=\"alert-title\"><ion-icon name=\"alert-circle-outline\"></ion-icon> Note</p><p>body text</p></div>" := by
  decide

/-- C1 (amended): for each of the five recognized tags, transforming
`<blockquote><p>[!TAG] body text</p></blockquote>` yields a container with
the tag's configured style class, its configured label, and a single
paragraph whose content is the body text passed through verbatim,
including the space after the closing bracket: `<p> body text</p>`. -/
theorem C1_exact_roundtrip_each_tag :
    alertsTransform "<blockquote><p>[!NOTE] body text</p></blockquote>" =
      some "<div class=\"alert is-info\"><p class=\"alert-title\"><ion-icon name=\"alert-circle-outline\"></ion-icon> Note</p><p> body text</p></div>" ∧
    alertsTransform "<blockquote><p>[!TIP] body text</p></blockquote>" =
      some "<div class=\"alert is-success\"><p class=\"alert-title\"><ion-icon name=\"leaf-outline\"></ion-icon> Tip</p><p> body text</p></div>" ∧
    alertsTransform "<blockquote><p>[!IMPORTANT] body text</p></blockquote>" =
      some "<div class=\"alert is-important\"><p class=\"alert-title\"><ion-icon name=\"hand-right-outline\"></ion-icon> Important</p><p> body text</p></div>" ∧
    alertsTransform "<blockquote><p>[!CAUTION] body text</p></blockquote>" =
      some "<div class=\"alert is-caution\"><p class=\"alert-title\"><ion-icon name=\"skull-outline\"></ion-icon> Caution</p><p> body text</p></div>" ∧
    alertsTransform "<blockquote><p>[!WARNING] body text</p></blockquote>" =
      some "<div class=\"alert is-warning\"><p class=\"alert-title\"><ion-icon name=\"warning-outline\"></ion-icon> Warning</p><p> body text</p></div>" := by
  refine ⟨by decide, by decide, by decide, by decide, by decide⟩

/-- C2 counterexample: a blockquote with two sibling paragraph children,
the first beginning with `[!NOTE]`, is NOT left unchanged — the lazy body
of the regex extends across the inner `</p><p>` up to the last `</p>`
before `</blockquote>`, so the whole region is rewritten. -/
theorem C2_claim_counterexample :
    alertsTransform "<blockquote><p>[!NOTE] a</p><p>b</p></blockquote>" ≠
      some "<blockquote><p>[!NOTE] a</p><p>b</p></blockquote>" := by
  decide

/-- C2 (amended): a blockquote region that never completes the pattern —
no `<p>[!` directly after the opening (e.g. a `<div>` child), or no
closing `</p>` followed by `</blockquote>` — fails to match and is left
as literal input; but a blockquote with two sibling `<p>` children whose
first begins with `[!NOTE]` does match: the captured body spans the
intermediate `</p><p>` verbatim and the whole region is rewritten. -/
theorem C2_malformed_nesting :
    alertsTransform "<blockquote><div>[!NOTE] x</div></blockquote>" =
      some "<blockquote><div>[!NOTE] x</div></blockquote>" ∧
    alertsTransform "<blockquote><p>[!NOTE] x</p>" =
      some "<blockquote><p>[!NOTE] x</p>" ∧
    alertsTransform "<blockquote><p>[!NOTE] a</p><p>b</p></blockquote>" =
      some "<div class=\"alert is-info\"><p class=\"alert-title\"><ion-icon name=\"alert-circle-outline\"></ion-icon> Note</p><p> a</p><p>b</p></div>" := by
  refine ⟨by decide, by decide, by decide⟩

/-- C3: a body that begins immediately with a `<br>` line break loses its
single leading empty line, and every remaining line — including an empty
line elsewhere in the body — becomes its own paragraph in original
order. -/
theorem C3_leading_blank_line :
    alertsTransform "<blockquote><p>[!NOTE]<br>line one<br>line two</p></blockquote>" =
      some "<div class=\"alert is-info\"><p class=\"alert-title\"><ion-icon name=\"alert-circle-outline\"></ion-icon> Note</p><p>line one</p><p>line two</p></div>" ∧
    alertsTransform "<blockquote><p>[!NOTE]<br>a<br><br>b</p></blockquote>" =
      some "<div class=\"alert is-info\"><p class=\"alert-title\"><ion-icon name=\"alert-circle-outline\"></ion-icon> Note</p><p>a</p><p></p><p>b</p></div>" := by
  refine ⟨by decide, by decide⟩

/-- C4: a content in which the regex matches nowhere is returned
unchanged, byte for byte; and any character at which no match starts is
passed through verbatim, with scanning continuing on the rest. -/
theorem C4_pass_through (s : String) (h : hasMatch s.data = false)
    (c : Char) (cs : List Char) (h' : matchAlertAt (c :: cs) = none) :
    alertsTransform s = some s ∧
      applyAlerts (c :: cs) = Option.map (fun out => c :: out) (applyAlerts cs) :=
  ⟨alertsTransform_of_not_hasMatch s h, applyAlerts_cons_of_none c cs h'⟩

/-- C4 witness: a concrete alert-free document passes through. -/
theorem C4_pass_through_witness :
    hasMatch "<h1>title</h1><p>plain paragraph</p>".data = false ∧
      matchAlertAt ('x' :: "yz".data) = none ∧
      (alertsTransform "<h1>title</h1><p>plain paragraph</p>" =
          some "<h1>title</h1><p>plain paragraph</p>" ∧
        applyAlerts ('x' :: "yz".data) =
          Option.map (fun out => 'x' :: out) (applyAlerts "yz".data)) :=
  ⟨by decide, by decide,
    C4_pass_through "<h1>title</h1><p>plain paragraph</p>" (by decide) 'x' "yz".data (by decide)⟩

/-- C5: every matched region's tag is one of the five recognized names,
matched exactly and case-sensitively; `[!DANGER]` and lowercase `[!note]`
blockquotes are left as the original markup. -/
theorem C5_closed_tag_set (l : List Char) (t : String) (b rest : List Char)
    (h : matchAlertAt l = some (t, b, rest)) :
    (t = "NOTE" ∨ t = "TIP" ∨ t = "IMPORTANT" ∨ t = "CAUTION" ∨ t = "WARNING") ∧
      alertsTransform "<blockquote><p>[!DANGER] x</p></blockquote>" =
        some "<blockquote><p>[!DANGER] x</p></blockquote>" ∧
      alertsTransform "<blockquote><p>[!note] x</p></blockquote>" =
        some "<blockquote><p>[!note] x</p></blockquote>" := by
  refine ⟨?_, by decide, by decide⟩
  have := (matchAlertAt_spec l t b rest h).1
  tauto

/-- C5 witness: the tag-set property at a concrete NOTE match. -/
theorem C5_closed_tag_set_witness :
    matchAlertAt "<blockquote><p>[!NOTE]</p></blockquote>".data =
        some ("NOTE", [], []) ∧
      (("NOTE" = "NOTE" ∨ "NOTE" = "TIP" ∨ "NOTE" = "IMPORTANT" ∨
          "NOTE" = "CAUTION" ∨ "NOTE" = "WARNING") ∧
        alertsTransform "<blockquote><p>[!DANGER] x</p></blockquote>" =
          some "<blockquote><p>[!DANGER] x</p></blockquote>" ∧
        alertsTransform "<blockquote><p>[!note] x</p></blockquote>" =
          some "<blockquote><p>[!note] x</p></blockquote>") :=
  ⟨by decide,
    C5_closed_tag_set "<blockquote><p>[!NOTE]</p></blockquote>".data "NOTE" [] [] (by decide)⟩

/-- C6: the replace pass rewrites every non-overlapping match left to
right: a consumed region is replaced whole and scanning resumes after it,
and a document with a NOTE block and a WARNING block around unrelated
text transforms both, leaving the interleaved text untouched. -/
theorem C6_global_replace (l : List Char) (t : String) (b rest rep : List Char)
    (h1 : matchAlertAt l = some (t, b, rest)) (h2 : renderAlert t b = some rep) :
    applyAlerts l = Option.map (fun out => rep ++ out) (applyAlerts rest) ∧
      alertsTransform "A<blockquote><p>[!NOTE] x</p></blockquote>B<blockquote><p>[!WARNING] y</p></blockquote>C" =
        some "A<div class=\"alert is-info\"><p class=\"alert-title\"><ion-icon name=\"alert-circle-outline\"></ion-icon> Note</p><p> x</p></div>B<div class=\"alert is-warning\"><p class=\"alert-title\"><ion-icon name=\"warning-outline\"></ion-icon> Warning</p><p> y</p></div>C" :=
  ⟨applyAlerts_match_step l t b rest rep h1 h2, by decide⟩

/-- C6 witness: the scan-resumption property at a concrete match. -/
theorem C6_global_replace_witness :
    matchAlertAt "<blockquote><p>[!NOTE]</p></blockquote>X".data =
        some ("NOTE", [], "X".data) ∧
      renderAlert "NOTE" [] =
        some "<div class=\"alert is-info\"><p class=\"alert-title\"><ion-icon name=\"alert-circle-outline\"></ion-icon> Note</p><p></p></div>".data ∧
      (applyAlerts "<blockquote><p>[!NOTE]</p></blockquote>X".data =
          Option.map
            (fun out => "<div class=\"alert is-info\"><p class=\"alert-title\"><ion-icon name=\"alert-circle-outline\"></ion-icon> Note</p><p></p></div>".data ++ out)
            (applyAlerts "X".data) ∧
        alertsTransform "A<blockquote><p>[!NOTE] x</p></blockquote>B<blockquote><p>[!WARNING] y</p></blockquote>C" =
          some "A<div class=\"alert is-info\"><p class=\"alert-title\"><ion-icon name=\"alert-circle-outline\"></ion-icon> Note</p><p> x</p></div>B<div class=\"alert is-warning\"><p class=\"alert-title\"><ion-icon name=\"warning-outline\"></ion-icon> Warning</p><p> y</p></div>C") :=
  ⟨by decide, by decide,
    C6_global_replace "<blockquote><p>[!NOTE]</p></blockquote>X".data "NOTE" [] "X".data
      "<div class=\"alert is-info\"><p class=\"alert-title\"><ion-icon name=\"alert-circle-outline\"></ion-icon> Note</p><p></p></div>".data
      (by decide) (by decide)⟩

/-- C7: for every recognized tag, a blockquote/paragraph pair with
newlines and indentation between `<blockquote>` and `<p>` and between
`</p>` and `</blockquote>` still matches and transforms to the same
container as the unindented form. -/
theorem C7_whitespace_tolerance :
    (alertsTransform "<blockquote>\n  <p>[!NOTE] x</p>\n</blockquote>" =
        some "<div class=\"alert is-info\"><p class=\"alert-title\"><ion-icon name=\"alert-circle-outline\"></ion-icon> Note</p><p> x</p></div>" ∧
      alertsTransform "<blockquote><p>[!NOTE] x</p></blockquote>" =
        some "<div class=\"alert is-info\"><p class=\"alert-title\"><ion-icon name=\"alert-circle-outline\"></ion-icon> Note</p><p> x</p></div>") ∧
    (alertsTransform "<blockquote>\n  <p>[!TIP] x</p>\n</blockquote>" =
        some "<div class=\"alert is-success\"><p class=\"alert-title\"><ion-icon name=\"leaf-outline\"></ion-icon> Tip</p><p> x</p></div>" ∧
      alertsTransform "<blockquote><p>[!TIP] x</p></blockquote>" =
        some "<div class=\"alert is-success\"><p class=\"alert-title\"><ion-icon name=\"leaf-outline\"></ion-icon> Tip</p><p> x</p></div>") ∧
    (alertsTransform "<blockquote>\n  <p>[!IMPORTANT] x</p>\n</blockquote>" =
        some "<div class=\"alert is-important\"><p class=\"alert-title\"><ion-icon name=\"hand-right-outline\"></ion-icon> Important</p><p> x</p></div>" ∧
      alertsTransform "<blockquote><p>[!IMPORTANT] x</p></blockquote>" =
        some "<div class=\"alert is-important\"><p class=\"alert-title\"><ion-icon name=\"hand-right-outline\"></ion-icon> Important</p><p> x</p></div>") ∧
    (alertsTransform "<blockquote>\n  <p>[!CAUTION] x</p>\n</blockquote>" =
        some "<div class=\"alert is-caution\"><p class=\"alert-title\"><ion-icon name=\"skull-outline\"></ion-icon> Caution</p><p> x</p></div>" ∧
      alertsTransform "<blockquote><p>[!CAUTION] x</p></blockquote>" =
        some "<div class=\"alert is-caution\"><p class=\"alert-title\"><ion-icon name=\"skull-outline\"></ion-icon> Caution</p><p> x</p></div>") ∧
    (alertsTransform "<blockquote>\n  <p>[!WARNING] x</p>\n</blockquote>" =
        some "<div class=\"alert is-warning\"><p class=\"alert-title\"><ion-icon name=\"warning-outline\"></ion-icon> Warning</p><p> x</p></div>" ∧
      alertsTransform "<blockquote><p>[!WARNING] x</p></blockquote>" =
        some "<div class=\"alert is-warning\"><p class=\"alert-title\"><ion-icon name=\"warning-outline\"></ion-icon> Warning</p><p> x</p></div>") := by
  refine ⟨⟨by decide, by decide⟩, ⟨by decide, by decide⟩, ⟨by decide, by decide⟩,
    ⟨by decide, by decide⟩, ⟨by decide, by decide⟩⟩

/-- C8: the post-render hook returns the same document object with
`content` replaced by the transformed HTML; every other field (abstracted
as `extra`) is unmodified. -/
theorem C8_document_frame {α : Type} (d : HexoDocument α) :
    ∃ c : String, alertsTransform d.content = some c ∧
      afterPostRender d = some { content := c, extra := d.extra } := by
  have h := alertsTransform_isSome d.content
  cases hx : alertsTransform d.content with
  | none => rw [hx] at h; simp at h
  | some c =>
    refine ⟨c, rfl, ?_⟩
    simp [afterPostRender, hx]

/-- C8 witness: the hook at a concrete document with a non-content
field. -/
theorem C8_document_frame_witness :
    afterPostRender ({ content := "<p>hi</p>", extra := 42 } : HexoDocument Nat) =
      some { content := "<p>hi</p>", extra := 42 } := by
  obtain ⟨c, h1, h2⟩ :=
    C8_document_frame ({ content := "<p>hi</p>", extra := 42 } : HexoDocument Nat)
  have hc : alertsTransform "<p>hi</p>" = some "<p>hi</p>" := by decide
  rw [hc] at h1
  cases h1
  exact h2

/-- C9: the regex tag set and the configuration key set agree — every
tag the pattern can capture has a configuration entry, the replacement
callback never dereferences a missing entry, and the whole transform
returns a result on every input. -/
theorem C9_config_in_sync (l : List Char) (t : String) (b rest : List Char)
    (h : matchAlertAt l = some (t, b, rest)) :
    (alertConfig t).isSome ∧ (renderAlert t b).isSome ∧
      ∀ s : String, (alertsTransform s).isSome := by
  have hc := matchAlertAt_config l t b rest h
  exact ⟨hc, renderAlert_isSome t b hc, alertsTransform_isSome⟩

/-- C9 witness: the lookup-safety property at a concrete WARNING match. -/
theorem C9_config_in_sync_witness :
    matchAlertAt "<blockquote><p>[!WARNING] w</p></blockquote>".data =
        some ("WARNING", " w".data, []) ∧
      ((alertConfig "WARNING").isSome ∧ (renderAlert "WARNING" " w".data).isSome ∧
        ∀ s : String, (alertsTransform s).isSome) :=
  ⟨by decide,
    C9_config_in_sync "<blockquote><p>[!WARNING] w</p></blockquote>".data
      "WARNING" " w".data [] (by decide)⟩

/-- C10: a matched alert with a completely empty body still renders one
paragraph, and that paragraph is empty: the leading-empty-line discard
empties the line list, but the paragraph construction emits `<p></p>`. -/
theorem C10_empty_body :
    alertsTransform "<blockquote><p>[!NOTE]</p></blockquote>" =
      some "<div class=\"alert is-info\"><p class=\"alert-title\"><ion-icon name=\"alert-circle-outline\"></ion-icon> Note</p><p></p></div>" := by
  decide
